import Mathlib

/-!
# Verification of the WA Legislature bill-document resolution subsystem

Shallow embedding of `wa_leg_mcp` (bill document validation, URL
construction, URI-template routing, chamber-resolving content tool, and
search-result extraction), with theorems settling the specification's
claims about it.

Conventions of the embedding:
* Python strings are Lean `String`s; character-level work goes through
  `String.toList` so that everything reduces in the kernel.
* The regex `\d` is modelled as ASCII digits (`Char.isDigit`), matching
  the inputs the program actually handles.
* `datetime.now().year` is an explicit `currentYear : Nat` parameter.
* The HTTP GET is an explicit oracle `http : String → Except String String`
  (`.ok body` for a 2xx response, `.error cause` for a raised exception,
  timeout or non-2xx status).  Each fetching function returns, next to its
  result, the list of URLs it actually fetched, so "no network access"
  is the trace being `[]`.
* Python `None` for an optional string parameter is `Option.none`.
-/

namespace WaLeg

/-- Sum of the digit values of a 7-character list, used by the biennium
validator below.  `charVal c` is Python's `int` on a single digit char. -/
def charVal (c : Char) : Nat := c.toNat - 48

/-- Does the list of characters of `p` occur as a prefix of `l`?
Models Python's `str.startswith`. -/
def strPrefix (p : String) (l : List Char) : Bool :=
  p.toList.isPrefixOf l

/-- Embeds `validate_biennium` (src/wa_leg_mcp/resources/bill_resources.py,
lines 30-75): regex `^\d{4}-\d{2}$`, split on `-`, parse the first four
digits and `"20" + last two digits` as integers, then require the first
year odd, the second year equal to the first plus one, and the first year
not greater than the current calendar year. -/
def validate_biennium (currentYear : Nat) (biennium : String) : Bool :=
  match biennium.toList with
  | [c1, c2, c3, c4, d, c5, c6] =>
    if c1.isDigit && c2.isDigit && c3.isDigit && c4.isDigit
        && (d == '-') && c5.isDigit && c6.isDigit then
      let year1 := charVal c1 * 1000 + charVal c2 * 100 + charVal c3 * 10 + charVal c4
      let year2 := 2000 + charVal c5 * 10 + charVal c6
      if year1 % 2 != 1 then false
      else if year2 != year1 + 1 then false
      else !(decide (year1 > currentYear))
    else false
  | _ => false

/-- Embeds `validate_chamber` (bill_resources.py, lines 78-92):
`chamber in ["House", "Senate"]`, case-sensitive. -/
def validate_chamber (chamber : String) : Bool :=
  chamber == "House" || chamber == "Senate"

/-- Embeds `validate_bill_number` (bill_resources.py, lines 95-124):
stringified input must match `^\d{3,5}$`.  Integer arguments arrive
already stringified (`str(bill_number)`). -/
def validate_bill_number (bill_number : String) : Bool :=
  let l := bill_number.toList
  l.all Char.isDigit && decide (3 ≤ l.length) && decide (l.length ≤ 5)

/-- Embeds `get_bill_document_url` (bill_resources.py, lines 127-159).
The format parameter is `Option String`: `some f` is a Python string
argument, `none` is Python `None` (which `read_bill_document` can pass
through when URI format extraction fails).  The three-way switch tests
`== "xml"`, `== "htm"`, and everything else (including `none`) takes the
`pdf` branch. -/
def get_bill_document_url (biennium chamber bill_number : String)
    (bill_format : Option String) : String :=
  let base_url := "https://lawfilesext.leg.wa.gov/biennium/" ++ biennium
  if bill_format == some "xml" then
    base_url ++ "/Xml/Bills/" ++ chamber ++ "%20Bills/" ++ bill_number ++ ".xml"
  else if bill_format == some "htm" then
    base_url ++ "/Htm/Bills/" ++ chamber ++ "%20Bills/" ++ bill_number ++ ".htm"
  else
    base_url ++ "/Pdf/Bills/" ++ chamber ++ "%20Bills/" ++ bill_number ++ ".pdf"

/-- The character `'0' + n % 10`, used to render decimal digits. -/
def dChar (n : Nat) : Char := Char.ofNat (48 + n % 10)

/-- Renders `f"{Y}-{z:02d}"` for a 4-digit year `Y` and a two-digit
suffix `z`: the four decimal digits of `Y`, a dash, and the two decimal
digits of `z` (zero-padded).  Harness for the claims about
`validate_biennium`. -/
def pairString (Y z : Nat) : String :=
  String.mk [dChar (Y / 1000), dChar (Y / 100), dChar (Y / 10), dChar Y,
             '-', dChar (z / 10), dChar z]

/-- Renders `f"{Y}-{(Y+1)%100:02d}"` for a 4-digit year `Y`, the
biennium string the claims build from a first year `Y`. -/
def bienniumString (Y : Nat) : String :=
  pairString Y ((Y + 1) % 100)

/-- Embeds the format-from-URI extraction at the top of
`read_bill_document` (bill_resources.py, lines 315-329), run only when
`bill_format` is `None`.  The four `startswith` tests use the literal
scheme `bill://`; the `bill://document/` branch applies the regex
`bill://document/([^/]+)/` — a nonempty run of non-slash characters
followed by a slash — and leaves the format `None` when the regex does
not match.  Any other prefix defaults to `"xml"`. -/
def extractFormat (uri : String) : Option String :=
  let l := uri.toList
  if strPrefix "bill://xml/" l then some "xml"
  else if strPrefix "bill://htm/" l then some "htm"
  else if strPrefix "bill://pdf/" l then some "pdf"
  else if strPrefix "bill://document/" l then
    let rest := l.drop 16
    let tok := rest.takeWhile (fun c => !(c == '/'))
    if !tok.isEmpty && decide (tok.length < rest.length) then
      some (String.mk tok)
    else none
  else some "xml"

/-- The `bill_info` sub-dictionary that `read_bill_document` embeds in
its pdf and fetch-failure descriptors. -/
structure BillInfo where
  biennium : String
  chamber : String
  bill_number : String
  format : Option String
deriving DecidableEq, Repr

/-- Result of `read_bill_document` / `fetch_bill_document`: raw document
text, a validation-error dictionary, the pdf URL-only descriptor, or the
fetch-failure fallback descriptor. -/
inductive DocResult where
  /-- A 2xx response body returned as text (xml/htm success). -/
  | text (body : String)
  /-- A `{"error": msg}` validation descriptor. -/
  | invalid (msg : String)
  /-- The pdf short-circuit descriptor
  `{url, mime_type, bill_info, description, note}`. -/
  | pdf (url : String) (mime_type : String) (bill_info : BillInfo)
      (description : String) (note : String)
  /-- The fetch-failure descriptor `{url, error, bill_info, note}`. -/
  | fetchFail (url : String) (error : String) (bill_info : BillInfo)
      (note : String)
deriving DecidableEq, Repr

/-- Embeds `read_bill_document` (bill_resources.py, lines 286-387).
Returns the result together with the list of URLs actually passed to the
HTTP client (so `[]` means no network access).  Control flow, error
strings and descriptor fields follow the source line by line:
format-from-URI resolution when `bill_format` is `None`, then biennium,
chamber and bill-number validation in that order (each short-circuiting),
then URL construction, the pdf short circuit, and finally the GET whose
exception is converted to the fallback descriptor. -/
def read_bill_document (currentYear : Nat)
    (http : String → Except String String) (uri : String)
    (biennium chamber bill_number : String) (bill_format : Option String) :
    DocResult × List String :=
  let fmt := match bill_format with
    | some f => some f
    | none => extractFormat uri
  if !validate_biennium currentYear biennium then
    (.invalid ("Invalid biennium format: " ++ biennium ++
      ". Must be YYYY-YY starting with odd year (e.g., 2025-26)"), [])
  else if !validate_chamber chamber then
    (.invalid ("Invalid chamber: " ++ chamber ++
      ". Must be exactly 'House' or 'Senate' (case-sensitive)"), [])
  else if !validate_bill_number bill_number then
    (.invalid ("Invalid bill number: " ++ bill_number ++
      ". Must be 3-5 digits without prefixes (e.g., 1234 not HB1234)"), [])
  else
    let document_url := get_bill_document_url biennium chamber bill_number fmt
    if fmt == some "pdf" then
      (.pdf document_url "application/pdf"
        ⟨biennium, chamber, bill_number, fmt⟩
        ("PDF URL for " ++ chamber ++ " Bill " ++ bill_number ++
          " from the " ++ biennium ++ " biennium")
        "Use the 'url' field to access the PDF document", [])
    else
      match http document_url with
      | .ok body => (.text body, [document_url])
      | .error e =>
        (.fetchFail document_url ("Could not fetch content: " ++ e)
          ⟨biennium, chamber, bill_number, fmt⟩
          "Document content unavailable, URL provided as fallback",
          [document_url])

/-- Modelled from the spec: `fetch_bill_document`
(`wa_leg_mcp/utils/bill_document_utils.py`) is not under `src/` — only
its tests import it — so this follows spec §4.3 word for word: validate
biennium, chamber, bill_number in that order, short-circuiting to an
error dictionary naming the failing field before any network call; build
the URL; pdf returns `{url, mime_type, bill_info}` without network
access; otherwise GET, returning the body on success and converting any
exception to the fallback descriptor. -/
def fetch_bill_document (currentYear : Nat)
    (http : String → Except String String)
    (biennium chamber bill_number : String) (bill_format : String) :
    DocResult × List String :=
  if !validate_biennium currentYear biennium then
    (.invalid ("Invalid biennium format: " ++ biennium), [])
  else if !validate_chamber chamber then
    (.invalid ("Invalid chamber: " ++ chamber), [])
  else if !validate_bill_number bill_number then
    (.invalid ("Invalid bill number: " ++ bill_number), [])
  else
    let url := get_bill_document_url biennium chamber bill_number (some bill_format)
    if bill_format == "pdf" then
      (.pdf url "application/pdf"
        ⟨biennium, chamber, bill_number, some bill_format⟩ "" "", [])
    else
      match http url with
      | .ok body => (.text body, [url])
      | .error e =>
        (.fetchFail url ("Could not fetch content: " ++ e)
          ⟨biennium, chamber, bill_number, some bill_format⟩
          "Document content unavailable, URL provided as fallback", [url])

/-- A legislative chamber: House or Senate. -/
inductive Cham where
  | house
  | senate
deriving DecidableEq, Repr

/-- The other chamber, used by the single House/Senate fallback retry. -/
def Cham.other : Cham → Cham
  | .house => .senate
  | .senate => .house

/-- Outcome of one document fetch as seen by the content tool: either
raw content or an `{"error": msg}` dictionary. -/
inductive FetchRes where
  | ok (content : String)
  | err (msg : String)
deriving DecidableEq, Repr

/-- Modelled from the spec: `get_bill_content`
(`wa_leg_mcp/tools/bill_tools.py`) is not under `src/` — only its
tests refer to it — so this follows spec §4.4 step by step.  The fetch
is the oracle `fetch : Cham → FetchRes` (biennium, bill number and
format are fixed for the duration of one call); `chamber` is the
caller-supplied chamber and `inferred` the outcome of the metadata
chamber inference (`none` when the lookup fails).  Steps: reject
unsupported formats before any fetch; with a supplied chamber fetch once
and return the result verbatim; otherwise fetch the inferred chamber
(House first when inference failed) and, if that attempt returns an
error, retry exactly once with the other chamber and return the second
attempt's result verbatim.  The returned list is the sequence of
chambers actually fetched. -/
def get_bill_content (fetch : Cham → FetchRes) (chamber : Option Cham)
    (inferred : Option Cham) (bill_format : String) : FetchRes × List Cham :=
  if !(bill_format == "xml" || bill_format == "htm" || bill_format == "pdf") then
    (.err ("Invalid format: " ++ bill_format ++ ". Must be 'xml', 'htm', or 'pdf'"), [])
  else
    match chamber with
    | some c => (fetch c, [c])
    | none =>
      let first := inferred.getD .house
      match fetch first with
      | .ok content => (.ok content, [first])
      | .err _ => (fetch first.other, [first, first.other])

/-- Drops everything up to and including the first occurrence of the
pattern `pat`; `none` when `pat` does not occur. -/
def afterSub (pat : List Char) : List Char → Option (List Char)
  | [] => if pat.isEmpty then some [] else none
  | c :: rest =>
    if pat.isPrefixOf (c :: rest) then some ((c :: rest).drop pat.length)
    else afterSub pat rest

/-- The prefix strictly before the first occurrence of `pat` (the whole
list when `pat` does not occur). -/
def beforeSub (pat : List Char) : List Char → List Char
  | [] => []
  | c :: rest =>
    if pat.isPrefixOf (c :: rest) then []
    else c :: beforeSub pat rest

/-- Does `pat` occur as a contiguous substring? -/
def containsSub (pat l : List Char) : Bool :=
  (afterSub pat l).isSome

/-- Numeric value of a run of decimal digit characters (Python `int`). -/
def natOfDigits (l : List Char) : Nat :=
  l.foldl (fun acc c => acc * 10 + charVal c) 0

/-- One extracted search result: `{bill_id, bill_number, biennium,
description}`. -/
structure SearchHit where
  bill_id : String
  bill_number : Nat
  biennium : String
  description : String
deriving DecidableEq, Repr

/-- Modelled from the spec: the HTML block scanner of
`WSLSearchClient.search_bills` (`wa_leg_mcp/clients/wsl_search_client.py`
is not under `src/`; only its tests and an example script are).  Spec
§4.6: each result block is an anchor element whose text is the bill
identifier, immediately followed by a parenthesized biennium token and
free text up to the block's end; the bill number is the leading digit
run of the identifier parsed to an integer; blocks that do not match the
structure are silently skipped.  `seg` is the text following one `<a`
occurrence. -/
def parseSearchBlock (seg : List Char) : Option SearchHit :=
  match afterSub ['>'] seg with
  | none => none
  | some body =>
    let bill_id := beforeSub ['<', '/', 'a', '>'] body
    match afterSub ['<', '/', 'a', '>'] body with
    | none => none
    | some rest =>
      match rest with
      | '(' :: rest1 =>
        let biennium := beforeSub [')'] rest1
        match afterSub [')'] rest1 with
        | none => none
        | some rest2 =>
          let desc0 := beforeSub ['<', '/', 'd', 'i', 'v', '>'] rest2
          let desc := if ['<', 'b', 'r', '/', '>'].isPrefixOf desc0 then
              desc0.drop 5
            else desc0
          let digits := bill_id.takeWhile Char.isDigit
          if bill_id.isEmpty || digits.isEmpty then none
          else
            some ⟨String.mk bill_id, natOfDigits digits,
                  String.mk biennium, String.mk desc⟩
      | _ => none

/-- All search hits extracted from an HTML fragment: scan for `<a`
occurrences, parse the block after each, skip mismatches.  `fuel`
bounds the recursion by the fragment length. -/
def searchHitsAux (fuel : Nat) (l : List Char) : List SearchHit :=
  match fuel with
  | 0 => []
  | fuel + 1 =>
    match afterSub ['<', 'a', ' '] l with
    | none => []
    | some seg =>
      match parseSearchBlock seg with
      | none => searchHitsAux fuel seg
      | some hit => hit :: searchHitsAux fuel seg

/-- Hits extracted from one HTML fragment string. -/
def searchHits (html : String) : List SearchHit :=
  searchHitsAux html.toList.length html.toList

/-- The `{Success, Response}` envelope returned by the search endpoint. -/
structure SearchEnvelope where
  success : Bool
  response : String
deriving DecidableEq, Repr

/-- Modelled from the spec: `WSLSearchClient.search_bills` outcome
handling (spec §4.6): the POST either raises (`Except.error`) or yields
an envelope; if it raises, or `Success` is false, the function returns
`None`; on success the fragment is scanned into hits. -/
def search_bills (post : Except String SearchEnvelope) :
    Option (List SearchHit) :=
  match post with
  | .error _ => none
  | .ok env => if env.success then some (searchHits env.response) else none

/-- The HTML fragment of the search-client test fixture
(`tests/test_wsl_search_client.py`): one well-formed result block with
identifier `1566-S`, biennium token `(2025-26)` and a trailing
description. -/
def searchTestFragment : String :=
  "<div class=\"searchResultRowClass\"><a id=\"1566-S\" href=\"javascript:;\" class=\"searchResultDisplayNameClass\">1566-S</a>(2025-26)<br/>AN ACT Relating to making improvements to transparency and accountability</div>"

/-- The description text of the block in `searchTestFragment`. -/
def searchTestDescription : String :=
  "AN ACT Relating to making improvements to transparency and accountability"

/-- A document fetcher on which both chamber attempts fail, as in the
both-chambers-fail test fixture. -/
def bothFailFetch : Cham → FetchRes
  | .house => .err "Bill not found in House"
  | .senate => .err "Bill not found in Senate"

/-! ## Lemmas about the biennium validator -/

lemma dChar_isDigit (n : Nat) : (dChar n).isDigit = true := by
  have h : n % 10 < 10 := Nat.mod_lt _ (by norm_num)
  unfold dChar
  set m := n % 10 with hm
  interval_cases m <;> decide

lemma charVal_dChar (n : Nat) : charVal (dChar n) = n % 10 := by
  have h : n % 10 < 10 := Nat.mod_lt _ (by norm_num)
  unfold dChar charVal
  set m := n % 10 with hm
  interval_cases m <;> decide

/-- What `validate_biennium` computes on a rendered pair `f"{Y}-{z:02d}"`:
the first year is re-read from the four digits of `Y`, the second year is
`2000` plus the two rendered digits of `z`. -/
lemma vb_pairString (cy Y z : Nat) :
    validate_biennium cy (pairString Y z) = true ↔
      ((Y/1000%10*1000 + Y/100%10*100 + Y/10%10*10 + Y%10) % 2 = 1 ∧
       2000 + z/10%10*10 + z%10 =
         Y/1000%10*1000 + Y/100%10*100 + Y/10%10*10 + Y%10 + 1 ∧
       Y/1000%10*1000 + Y/100%10*100 + Y/10%10*10 + Y%10 ≤ cy) := by
  simp [validate_biennium, pairString, dChar_isDigit, charVal_dChar]

lemma vb_true (cy Y : Nat) (h1 : Y % 2 = 1) (h2 : 1999 ≤ Y) (h3 : Y ≤ 2098)
    (h4 : Y ≤ cy) : validate_biennium cy (bienniumString Y) = true := by
  rw [bienniumString, vb_pairString]
  omega

lemma vb_even (cy Y : Nat) (h1 : Y % 2 = 0) (h2 : Y ≤ 9999) :
    validate_biennium cy (bienniumString Y) = false := by
  rw [bienniumString, ← Bool.not_eq_true, vb_pairString]
  omega

lemma vb_noncons (cy Y z : Nat) (h1 : z < 100) (h2 : 2000 + z ≠ Y + 1)
    (h3 : Y ≤ 9999) : validate_biennium cy (pairString Y z) = false := by
  rw [← Bool.not_eq_true, vb_pairString]
  omega

/-! ## Lemmas about format extraction from URIs -/

lemma strPrefix_self_append (p : String) (t : List Char) :
    strPrefix p (p.toList ++ t) = true := by
  rw [strPrefix, List.isPrefixOf_iff_prefix]
  exact List.prefix_append _ _

lemma toList_mk (l : List Char) : (String.mk l).toList = l := rfl

lemma toList_string_append (a b : String) :
    (a ++ b).toList = a.toList ++ b.toList := String.data_append a b

lemma docList :
    "bill://document/".toList =
      ['b','i','l','l',':','/','/','d','o','c','u','m','e','n','t','/'] := rfl

lemma htmList :
    "bill://htm/".toList = ['b','i','l','l',':','/','/','h','t','m','/'] := rfl

lemma pdfList :
    "bill://pdf/".toList = ['b','i','l','l',':','/','/','p','d','f','/'] := rfl

lemma strPrefix_xml_doc (t : List Char) :
    strPrefix "bill://xml/" ("bill://document/".toList ++ t) = false := by
  rw [docList]
  simp [strPrefix, List.isPrefixOf]

lemma strPrefix_htm_doc (t : List Char) :
    strPrefix "bill://htm/" ("bill://document/".toList ++ t) = false := by
  rw [docList]
  simp [strPrefix, List.isPrefixOf]

lemma strPrefix_pdf_doc (t : List Char) :
    strPrefix "bill://pdf/" ("bill://document/".toList ++ t) = false := by
  rw [docList]
  simp [strPrefix, List.isPrefixOf]

lemma strPrefix_xml_htm (t : List Char) :
    strPrefix "bill://xml/" ("bill://htm/".toList ++ t) = false := by
  rw [htmList]
  simp [strPrefix, List.isPrefixOf]

lemma strPrefix_xml_pdf (t : List Char) :
    strPrefix "bill://xml/" ("bill://pdf/".toList ++ t) = false := by
  rw [pdfList]
  simp [strPrefix, List.isPrefixOf]

lemma strPrefix_htm_pdf (t : List Char) :
    strPrefix "bill://htm/" ("bill://pdf/".toList ++ t) = false := by
  rw [pdfList]
  simp [strPrefix, List.isPrefixOf]

lemma takeWhile_tok (tok rest : List Char) (h : ∀ c ∈ tok, c ≠ '/') :
    (tok ++ '/' :: rest).takeWhile (fun c => !(c == '/')) = tok := by
  induction tok with
  | nil => simp [List.takeWhile_cons]
  | cons c cs ih =>
    have hc : c ≠ '/' := h c (List.mem_cons_self c cs)
    simp only [List.cons_append, List.takeWhile_cons]
    simp [hc, ih (fun x hx => h x (List.mem_cons_of_mem c hx))]

/-- The `bill://document/([^/]+)/` regex branch of the extraction: a
nonempty slash-free token followed by a slash is returned verbatim. -/
lemma extractFormat_document (tok rest : List Char) (h1 : tok ≠ [])
    (h2 : ∀ c ∈ tok, c ≠ '/') :
    extractFormat (String.mk ("bill://document/".toList ++ tok ++ '/' :: rest)) =
      some (String.mk tok) := by
  have hb : strPrefix "bill://document/"
      ("bill://document/".toList ++ (tok ++ '/' :: rest)) = true :=
    strPrefix_self_append _ _
  have hdrop : ("bill://document/".toList ++ (tok ++ '/' :: rest)).drop 16 =
      tok ++ '/' :: rest := List.drop_left' rfl
  rw [extractFormat, toList_mk, List.append_assoc]
  rw [strPrefix_xml_doc, strPrefix_htm_doc, strPrefix_pdf_doc]
  simp only [Bool.false_eq_true, if_false, hb, if_true, hdrop,
    takeWhile_tok tok rest h2]
  have hne : tok.isEmpty = false := by
    cases tok with
    | nil => exact absurd rfl h1
    | cons a l => rfl
  simp [hne]

lemma extractFormat_alias (s : String) :
    extractFormat ("bill://xml/" ++ s) = some "xml"
    ∧ extractFormat ("bill://htm/" ++ s) = some "htm"
    ∧ extractFormat ("bill://pdf/" ++ s) = some "pdf" := by
  refine ⟨?_, ?_, ?_⟩
  · rw [extractFormat, toList_string_append, strPrefix_self_append]
    simp
  · rw [extractFormat, toList_string_append, strPrefix_xml_htm,
      strPrefix_self_append]
    simp
  · rw [extractFormat, toList_string_append, strPrefix_xml_pdf,
      strPrefix_htm_pdf, strPrefix_self_append]
    simp

lemma extractFormat_default (uri : String)
    (h1 : strPrefix "bill://xml/" uri.toList = false)
    (h2 : strPrefix "bill://htm/" uri.toList = false)
    (h3 : strPrefix "bill://pdf/" uri.toList = false)
    (h4 : strPrefix "bill://document/" uri.toList = false) :
    extractFormat uri = some "xml" := by
  rw [extractFormat, h1, h2, h3, h4]
  simp

/-! ## The claims -/

/-- C1: with chamber omitted and the metadata chamber inference failed,
`get_bill_content` fetches House first and, when that attempt returns an
error, retries exactly once with Senate and returns the second attempt's
result verbatim (success or error); in particular when both attempts
fail the caller receives exactly the Senate error, and the fetcher is
invoked exactly twice (the trace is `[house, senate]`). -/
theorem getBillContent_house_senate_fallback (fetch : Cham → FetchRes)
    (fmt e1 : String) (hfmt : fmt = "xml" ∨ fmt = "htm" ∨ fmt = "pdf")
    (h : fetch .house = .err e1) :
    get_bill_content fetch none none fmt = (fetch .senate, [.house, .senate])
    ∧ ∀ e2, fetch .senate = .err e2 →
      get_bill_content fetch none none fmt = (.err e2, [.house, .senate]) := by
  have hmain : get_bill_content fetch none none fmt =
      (fetch .senate, [.house, .senate]) := by
    rcases hfmt with rfl | rfl | rfl <;> simp [get_bill_content, h, Cham.other]
  exact ⟨hmain, fun e2 h2 => by rw [hmain, h2]⟩

/-- C1 witness: on the fetcher where House and Senate both fail, the
result is exactly the Senate error and the trace has two fetches. -/
theorem getBillContent_house_senate_fallback_witness :
    bothFailFetch .house = .err "Bill not found in House"
    ∧ get_bill_content bothFailFetch none none "xml" =
        (.err "Bill not found in Senate", [.house, .senate]) :=
  ⟨rfl, (getBillContent_house_senate_fallback bothFailFetch "xml"
    "Bill not found in House" (Or.inl rfl) rfl).2 "Bill not found in Senate" rfl⟩

/-- C2: both document-fetch entry points validate biennium, chamber and
bill number in that order, and the first failing validation returns an
error descriptor naming that field, with an empty fetch trace (no
network request), regardless of whether the later fields are also
invalid. -/
theorem document_fetch_validation_order (cy : Nat)
    (http : String → Except String String) (uri b c n : String)
    (fmt : Option String) (fmtS : String) :
    (validate_biennium cy b = false →
      read_bill_document cy http uri b c n fmt =
        (.invalid ("Invalid biennium format: " ++ b ++
          ". Must be YYYY-YY starting with odd year (e.g., 2025-26)"), []) ∧
      fetch_bill_document cy http b c n fmtS =
        (.invalid ("Invalid biennium format: " ++ b), []))
    ∧ (validate_biennium cy b = true → validate_chamber c = false →
      read_bill_document cy http uri b c n fmt =
        (.invalid ("Invalid chamber: " ++ c ++
          ". Must be exactly 'House' or 'Senate' (case-sensitive)"), []) ∧
      fetch_bill_document cy http b c n fmtS =
        (.invalid ("Invalid chamber: " ++ c), []))
    ∧ (validate_biennium cy b = true → validate_chamber c = true →
        validate_bill_number n = false →
      read_bill_document cy http uri b c n fmt =
        (.invalid ("Invalid bill number: " ++ n ++
          ". Must be 3-5 digits without prefixes (e.g., 1234 not HB1234)"), []) ∧
      fetch_bill_document cy http b c n fmtS =
        (.invalid ("Invalid bill number: " ++ n), [])) := by
  refine ⟨fun h1 => ?_, fun h1 h2 => ?_, fun h1 h2 h3 => ?_⟩ <;>
    constructor <;> simp [read_bill_document, fetch_bill_document, *]

/-- C2 witness: an input whose biennium, chamber and bill number are all
invalid gets the biennium error, with no fetch. -/
theorem document_fetch_validation_order_witness :
    validate_biennium 2026 "2024-25" = false
    ∧ read_bill_document 2026 (fun _ => .error "unused")
        "bill://xml/2024-25/house/HB1234" "2024-25" "house" "HB1234"
        (some "xml") =
      (.invalid ("Invalid biennium format: 2024-25" ++
        ". Must be YYYY-YY starting with odd year (e.g., 2025-26)"), [])
    ∧ fetch_bill_document 2026 (fun _ => .error "unused")
        "2024-25" "house" "HB1234" "xml" =
      (.invalid "Invalid biennium format: 2024-25", []) := by
  have h := (document_fetch_validation_order 2026 (fun _ => .error "unused")
    "bill://xml/2024-25/house/HB1234" "2024-25" "house" "HB1234"
    (some "xml") "xml").1 (by decide)
  exact ⟨by decide, h.1, h.2⟩

/-- C3: when the HTTP GET of an xml/htm document raises, with all three
identifiers valid, `read_bill_document` returns the fallback descriptor
whose `url` is the constructed document URL, whose `error` is the cause
prefixed by `Could not fetch content: `, with the `bill_info` record and
the fallback note — the exception never propagates (the function is
total and the result is this descriptor). -/
theorem fetch_exception_fallback_descriptor (cy : Nat)
    (http : String → Except String String) (uri b c n fmtS cause : String)
    (hf : fmtS = "xml" ∨ fmtS = "htm")
    (h1 : validate_biennium cy b = true) (h2 : validate_chamber c = true)
    (h3 : validate_bill_number n = true)
    (hh : http (get_bill_document_url b c n (some fmtS)) = .error cause) :
    read_bill_document cy http uri b c n (some fmtS) =
      (.fetchFail (get_bill_document_url b c n (some fmtS))
        ("Could not fetch content: " ++ cause) ⟨b, c, n, some fmtS⟩
        "Document content unavailable, URL provided as fallback",
       [get_bill_document_url b c n (some fmtS)]) := by
  rcases hf with rfl | rfl <;> simp [read_bill_document, h1, h2, h3, hh]

/-- C3 witness: a raising GET on a valid xml request yields the fallback
descriptor carrying the xml document URL. -/
theorem fetch_exception_fallback_descriptor_witness :
    validate_biennium 2026 "2025-26" = true
    ∧ read_bill_document 2026 (fun _ => .error "HTTP Error")
        "bill://xml/2025-26/House/1234" "2025-26" "House" "1234"
        (some "xml") =
      (.fetchFail
        "https://lawfilesext.leg.wa.gov/biennium/2025-26/Xml/Bills/House%20Bills/1234.xml"
        "Could not fetch content: HTTP Error"
        ⟨"2025-26", "House", "1234", some "xml"⟩
        "Document content unavailable, URL provided as fallback",
       ["https://lawfilesext.leg.wa.gov/biennium/2025-26/Xml/Bills/House%20Bills/1234.xml"]) :=
  ⟨by decide, fetch_exception_fallback_descriptor 2026
    (fun _ => .error "HTTP Error") "bill://xml/2025-26/House/1234"
    "2025-26" "House" "1234" "xml" "HTTP Error" (Or.inl rfl)
    (by decide) (by decide) (by decide) rfl⟩

/-- C4: `get_bill_content` with a format that is none of xml, htm, pdf
returns the invalid-format error and performs zero fetches, regardless
of the other arguments. -/
theorem invalid_format_rejected_without_fetch (fetch : Cham → FetchRes)
    (chamber inferred : Option Cham) (fmt : String)
    (h1 : fmt ≠ "xml") (h2 : fmt ≠ "htm") (h3 : fmt ≠ "pdf") :
    get_bill_content fetch chamber inferred fmt =
      (.err ("Invalid format: " ++ fmt ++ ". Must be 'xml', 'htm', or 'pdf'"), []) := by
  simp [get_bill_content, h1, h2, h3]

/-- C4 witness: format `invalid` is rejected with zero fetches. -/
theorem invalid_format_rejected_without_fetch_witness :
    get_bill_content bothFailFetch (some .house) none "invalid" =
      (.err "Invalid format: invalid. Must be 'xml', 'htm', or 'pdf'", []) :=
  invalid_format_rejected_without_fetch bothFailFetch (some .house) none
    "invalid" (by decide) (by decide) (by decide)

/-- C5 counterexample: the claim quantifies over every odd 4-digit year
`Y` up to the current calendar year (2026), but the validator reads the
two-digit suffix as a 21st-century year (`"20" + suffix`), so at
`Y = 1899` the rendered string `1899-00` parses to the pair
`(1899, 2000)`, the consecutive-year check fails, and `validate_biennium`
returns `false` where the claim requires `true`. -/
theorem biennium_claim_false_at_1899 :
    ¬ (∀ Y : Nat, 1000 ≤ Y → Y ≤ 9999 → Y % 2 = 1 → Y ≤ 2026 →
        validate_biennium 2026 (bienniumString Y) = true) := by
  intro h
  exact absurd (h 1899 (by norm_num) (by norm_num) (by norm_num) (by norm_num))
    (by decide)

/-- C5 amended: for every odd year `Y` with `1999 ≤ Y ≤ 2098` (so the
two-digit suffix denotes `Y + 1` in the 21st-century window the parser
assumes) and `Y` at most the current calendar year,
`validate_biennium(f"{Y}-{(Y+1)%100:02d}")` is true; for an even 4-digit
first year it is false; and for a pair whose parsed second year
`2000 + z` is not `Y + 1` it is false. -/
theorem validate_biennium_window (cy Y z : Nat) :
    (Y % 2 = 1 → 1999 ≤ Y → Y ≤ 2098 → Y ≤ cy →
      validate_biennium cy (bienniumString Y) = true)
    ∧ (Y % 2 = 0 → 1000 ≤ Y → Y ≤ 9999 →
      validate_biennium cy (bienniumString Y) = false)
    ∧ (1000 ≤ Y → Y ≤ 9999 → z < 100 → 2000 + z ≠ Y + 1 →
      validate_biennium cy (pairString Y z) = false) :=
  ⟨fun a b c d => vb_true cy Y a b c d,
   fun a _ c => vb_even cy Y a c,
   fun _ b c d => vb_noncons cy Y z c d b⟩

/-- C5 witness: `2025-26` is accepted in 2026; the even start `2024-25`
and the non-consecutive pair `2023-27` are rejected. -/
theorem validate_biennium_window_witness :
    (2025 % 2 = 1 ∧ validate_biennium 2026 (bienniumString 2025) = true)
    ∧ (2024 % 2 = 0 ∧ validate_biennium 2026 (bienniumString 2024) = false)
    ∧ (2000 + 27 ≠ 2023 + 1 ∧ validate_biennium 2026 (pairString 2023 27) = false) :=
  ⟨⟨by norm_num, (validate_biennium_window 2026 2025 0).1 (by norm_num)
      (by norm_num) (by norm_num) (by norm_num)⟩,
   ⟨by norm_num, (validate_biennium_window 2026 2024 0).2.1 (by norm_num)
      (by norm_num) (by norm_num)⟩,
   ⟨by norm_num, (validate_biennium_window 2026 2023 27).2.2 (by norm_num)
      (by norm_num) (by norm_num) (by norm_num)⟩⟩

/-- C6 counterexample: the router's URI templates use the literal scheme
`bill://`, not `doc://`; at the claim's concrete input the URI
`doc://htm/2025-26/House/1234` matches none of the four prefixes, so the
format defaults to `xml` (not `htm`) and the fetched URL is the Xml
document URL. -/
theorem doc_scheme_uri_defaults_to_xml :
    extractFormat "doc://htm/2025-26/House/1234" = some "xml"
    ∧ (some "xml" : Option String) ≠ some "htm"
    ∧ (read_bill_document 2026 (fun _ => .ok "body")
        "doc://htm/2025-26/House/1234" "2025-26" "House" "1234" none).2 =
      ["https://lawfilesext.leg.wa.gov/biennium/2025-26/Xml/Bills/House%20Bills/1234.xml"] :=
  ⟨by decide, by decide, by decide⟩

/-- C6 amended: with `bill://` as the scheme literal, the format is
inferred from the URI prefix when not supplied: `bill://xml/` gives xml,
`bill://htm/` htm, `bill://pdf/` pdf, `bill://document/<fmt>/` the
embedded token, and a URI matching none of the four prefixes defaults to
xml; concretely, `bill://htm/2025-26/House/1234` with no explicit format
fetches the Htm document URL. -/
theorem format_from_uri_bill_scheme (s uri : String) (tok rest : List Char)
    (htok1 : tok ≠ []) (htok2 : ∀ c ∈ tok, c ≠ '/')
    (hu1 : strPrefix "bill://xml/" uri.toList = false)
    (hu2 : strPrefix "bill://htm/" uri.toList = false)
    (hu3 : strPrefix "bill://pdf/" uri.toList = false)
    (hu4 : strPrefix "bill://document/" uri.toList = false) :
    extractFormat ("bill://xml/" ++ s) = some "xml"
    ∧ extractFormat ("bill://htm/" ++ s) = some "htm"
    ∧ extractFormat ("bill://pdf/" ++ s) = some "pdf"
    ∧ extractFormat
        (String.mk ("bill://document/".toList ++ tok ++ '/' :: rest)) =
      some (String.mk tok)
    ∧ extractFormat uri = some "xml"
    ∧ (read_bill_document 2026 (fun _ => .ok "body")
        "bill://htm/2025-26/House/1234" "2025-26" "House" "1234" none).2 =
      ["https://lawfilesext.leg.wa.gov/biennium/2025-26/Htm/Bills/House%20Bills/1234.htm"] :=
  ⟨(extractFormat_alias s).1, (extractFormat_alias s).2.1,
   (extractFormat_alias s).2.2,
   extractFormat_document tok rest htok1 htok2,
   extractFormat_default uri hu1 hu2 hu3 hu4, by decide⟩

/-- C6 witness: the amended inference at concrete URIs, including the
embedded-token case and the default for an unrecognized prefix. -/
theorem format_from_uri_bill_scheme_witness :
    extractFormat ("bill://htm/" ++ "2025-26/House/1234") = some "htm"
    ∧ extractFormat
        (String.mk ("bill://document/".toList ++
          ['p','d','f'] ++ '/' :: "2025-26/House/1234".toList)) = some "pdf"
    ∧ extractFormat "bill://unknown/2025-26/House/1234" = some "xml" := by
  have h := format_from_uri_bill_scheme "2025-26/House/1234"
    "bill://unknown/2025-26/House/1234" ['p','d','f']
    "2025-26/House/1234".toList (by decide) (by decide)
    (by decide) (by decide) (by decide) (by decide)
  exact ⟨h.2.1, h.2.2.2.1, h.2.2.2.2.1⟩

/-- C7: `get_bill_document_url` builds exactly
`https://lawfilesext.leg.wa.gov/biennium/{biennium}/{Format}/Bills/{chamber}%20Bills/{bill_number}.{ext}`
with Xml/xml for `xml`, Htm/htm for `htm`, and the Pdf branch for every
other format value (unrecognized ones and `None` included); in
particular the xml URL for House bill 1234 of 2025-26 is the expected
literal. -/
theorem bill_document_url_shape (b c n : String) (f : Option String)
    (h1 : f ≠ some "xml") (h2 : f ≠ some "htm") :
    get_bill_document_url b c n (some "xml") =
      "https://lawfilesext.leg.wa.gov/biennium/" ++ b ++ "/Xml/Bills/" ++ c ++
        "%20Bills/" ++ n ++ ".xml"
    ∧ get_bill_document_url b c n (some "htm") =
      "https://lawfilesext.leg.wa.gov/biennium/" ++ b ++ "/Htm/Bills/" ++ c ++
        "%20Bills/" ++ n ++ ".htm"
    ∧ get_bill_document_url b c n f =
      "https://lawfilesext.leg.wa.gov/biennium/" ++ b ++ "/Pdf/Bills/" ++ c ++
        "%20Bills/" ++ n ++ ".pdf"
    ∧ get_bill_document_url "2025-26" "House" "1234" (some "xml") =
      "https://lawfilesext.leg.wa.gov/biennium/2025-26/Xml/Bills/House%20Bills/1234.xml" := by
  refine ⟨rfl, rfl, ?_, by decide⟩
  simp [get_bill_document_url, h1, h2]

/-- C7 witness: the unrecognized format `invalid` takes the Pdf branch at
a concrete input. -/
theorem bill_document_url_shape_witness :
    get_bill_document_url "2025-26" "Senate" "5678" (some "invalid") =
      "https://lawfilesext.leg.wa.gov/biennium/" ++ "2025-26" ++
        "/Pdf/Bills/" ++ "Senate" ++ "%20Bills/" ++ "5678" ++ ".pdf" :=
  (bill_document_url_shape "2025-26" "Senate" "5678" (some "invalid")
    (by decide) (by decide)).2.2.1

set_option maxRecDepth 80000 in
/-- C8: `search_bills` collapses a raised request or a `Success: false`
envelope to `None`; on the test fragment it extracts exactly one hit
with `bill_id` 1566-S, `bill_number` 1566 (the leading digit run of the
identifier, not the suffix), `biennium` 2025-26, and a description
containing the trailing text. -/
theorem search_bills_extraction :
    (∀ e : String, search_bills (.error e) = none)
    ∧ (∀ r : String, search_bills (.ok ⟨false, r⟩) = none)
    ∧ search_bills (.ok ⟨true, searchTestFragment⟩) =
        some [⟨"1566-S", 1566, "2025-26", searchTestDescription⟩]
    ∧ containsSub "transparency and accountability".toList
        searchTestDescription.toList = true
    ∧ natOfDigits ("1566-S".toList.takeWhile Char.isDigit) = 1566 :=
  ⟨fun _ => rfl, fun _ => rfl, by decide, by decide, by decide⟩

/-- C9: with valid identifiers, a pdf fetch through either entry point
returns the URL-only descriptor with mime type `application/pdf` and the
`bill_info` record, and the fetch trace is empty (no network access). -/
theorem pdf_short_circuit_no_network (cy : Nat)
    (http : String → Except String String) (uri b c n : String)
    (h1 : validate_biennium cy b = true) (h2 : validate_chamber c = true)
    (h3 : validate_bill_number n = true) :
    read_bill_document cy http uri b c n (some "pdf") =
      (.pdf (get_bill_document_url b c n (some "pdf")) "application/pdf"
        ⟨b, c, n, some "pdf"⟩
        ("PDF URL for " ++ c ++ " Bill " ++ n ++ " from the " ++ b ++ " biennium")
        "Use the 'url' field to access the PDF document", [])
    ∧ fetch_bill_document cy http b c n "pdf" =
      (.pdf (get_bill_document_url b c n (some "pdf")) "application/pdf"
        ⟨b, c, n, some "pdf"⟩ "" "", []) := by
  constructor <;> simp [read_bill_document, fetch_bill_document, h1, h2, h3]

/-- C9 witness: the pdf descriptor for Senate bill 5678 of 2025-26, with
an empty trace, on an oracle that would raise if consulted. -/
theorem pdf_short_circuit_no_network_witness :
    validate_biennium 2026 "2025-26" = true
    ∧ read_bill_document 2026 (fun _ => .error "no network")
        "bill://pdf/2025-26/Senate/5678" "2025-26" "Senate" "5678"
        (some "pdf") =
      (.pdf (get_bill_document_url "2025-26" "Senate" "5678" (some "pdf"))
        "application/pdf" ⟨"2025-26", "Senate", "5678", some "pdf"⟩
        ("PDF URL for " ++ "Senate" ++ " Bill " ++ "5678" ++ " from the " ++
          "2025-26" ++ " biennium")
        "Use the 'url' field to access the PDF document", []) :=
  ⟨by decide, (pdf_short_circuit_no_network 2026 (fun _ => .error "no network")
    "bill://pdf/2025-26/Senate/5678" "2025-26" "Senate" "5678"
    (by decide) (by decide) (by decide)).1⟩

/-- C10: a `bill://document/` URI whose format token is not followed by
a further slash leaves the format unset (`None`) rather than defaulting
to xml; validation still passes, the URL builder takes its default Pdf
branch, the pdf short circuit is not taken (it compares the format to
`"pdf"`, which `None` fails), and the function performs a live fetch of
the `.pdf` URL, returning the response body as text. -/
theorem document_uri_without_slash_fetches_pdf_url (cy : Nat)
    (http : String → Except String String) (b c n body : String)
    (h1 : validate_biennium cy b = true) (h2 : validate_chamber c = true)
    (h3 : validate_bill_number n = true)
    (hh : http (get_bill_document_url b c n none) = .ok body) :
    extractFormat "bill://document/xml" = none
    ∧ get_bill_document_url b c n none =
      "https://lawfilesext.leg.wa.gov/biennium/" ++ b ++
        "/Pdf/Bills/" ++ c ++ "%20Bills/" ++ n ++ ".pdf"
    ∧ read_bill_document cy http "bill://document/xml" b c n none =
      (.text body, [get_bill_document_url b c n none]) := by
  refine ⟨by decide, rfl, ?_⟩
  simp [read_bill_document, h1, h2, h3, hh, extractFormat, strPrefix]

/-- C10 witness: at `bill://document/xml` with valid identifiers the
fetched URL is the `.pdf` one and the body comes back as text. -/
theorem document_uri_without_slash_fetches_pdf_url_witness :
    validate_biennium 2026 "2025-26" = true
    ∧ read_bill_document 2026 (fun _ => .ok "PDFBYTES")
        "bill://document/xml" "2025-26" "House" "1234" none =
      (.text "PDFBYTES",
       [get_bill_document_url "2025-26" "House" "1234" none]) :=
  ⟨by decide, (document_uri_without_slash_fetches_pdf_url 2026
    (fun _ => .ok "PDFBYTES") "2025-26" "House" "1234" "PDFBYTES"
    (by decide) (by decide) (by decide) rfl).2.2⟩

end WaLeg
